import Mathlib

/-!
Shallow embedding of the AS9817-32O platform code:
the transceiver (`sonic_platform/sfp.py`) and the platform installer
utility (`utils/accton_as9817_32o_util.py`).

External effects (sysfs reads/writes, i2c writes, the transceiver API of
the excluded `sonic_platform_base` framework, subprocess exit statuses)
are modelled as explicit oracle parameters; each operation returns its
result together with the trace of hardware writes it issued.
-/

namespace Sfp

/-! Constants of `sonic_platform/sfp.py` (class `Sfp`). -/

def PORT_START : Nat := 1

def PORT_END : Nat := 34

def SFP_TYPE_CODE_LIST : List Nat := [0x03, 0x0b]

def QSFP_TYPE_CODE_LIST : List Nat := [0x0c, 0x0d, 0x11, 0xe1]

def QSFP_DD_TYPE_CODE_LIST : List Nat := [0x18, 0x1e]

def OSFP_TYPE_CODE_LIST : List Nat := [0x19]

def SFP_TYPE : String := "SFP"

def QSFP_TYPE : String := "QSFP"

def OSFP_TYPE : String := "OSFP"

def QSFP_DD_TYPE : String := "QSFP_DD"

def UPDATE_DONE : String := "Done"

def EEPROM_DATA_NOT_READY : String := "eeprom not ready"

def UNKNOWN_SFP_TYPE_ID : String := "unknow sfp ID"

def FPGA_PCIE_PATH : String := "/sys/devices/platform/as9817_32_fpga/"

/-- The dict literal `Sfp._port_to_i2c_mapping` (port index to i2c bus). -/
def _port_to_i2c_mapping : List (Nat × Nat) :=
  [(1, 2), (2, 3), (3, 4), (4, 5),
   (5, 6), (6, 7), (7, 8), (8, 9),
   (9, 10), (10, 11), (11, 12), (12, 13),
   (13, 14), (14, 15), (15, 16), (16, 17),
   (17, 18), (18, 19), (19, 20), (20, 21),
   (21, 22), (22, 23), (23, 24), (24, 25),
   (25, 26), (26, 27), (27, 28), (28, 29),
   (29, 30), (30, 31), (31, 32), (32, 33),
   (33, 34), (34, 35)]

/-- `EEPROM_PATH.format(bus, addr)` for the template
`'/sys/bus/i2c/devices/{}-00{}/eeprom'`. -/
def EEPROM_PATH_format (bus : Nat) (addr : String) : String :=
  "/sys/bus/i2c/devices/" ++ Nat.repr bus ++ "-00" ++ addr ++ "/eeprom"

/-- `Sfp.get_eeprom_path` reads `self.port_to_eeprom_mapping[self.port_num]`,
the dict built in `__init__` whose keys are exactly `PORT_START..PORT_END`
with values `EEPROM_PATH.format(self._port_to_i2c_mapping[x], "50")`.
An out-of-range `port_num` raises `KeyError`, modelled as `none`. -/
def get_eeprom_path (port_num : Nat) : Option String :=
  if PORT_START ≤ port_num ∧ port_num ≤ PORT_END then
    (_port_to_i2c_mapping.lookup port_num).map (fun bus => EEPROM_PATH_format bus "50")
  else none

/-- `Sfp.update_sfp_type`, as a pure function of the oracles it consults:
`presence` is the result of `self.get_presence()` and `eeprom_raw` the
result of `self.read_eeprom(0, 1)` (`none` models Python `None`, `some []`
an empty — falsy — buffer).  `sfp_type` is the field value before the call
(`hasattr(self, 'sfp_type')` always holds after `__init__`).  Returns the
Python return value together with the new value of `self.sfp_type`. -/
def update_sfp_type (presence : Bool) (eeprom_raw : Option (List Nat))
    (sfp_type : String) : String × String :=
  if presence = false then (EEPROM_DATA_NOT_READY, sfp_type)
  else
    match eeprom_raw with
    | some (b :: _) =>
        if b ∈ SFP_TYPE_CODE_LIST then (UPDATE_DONE, SFP_TYPE)
        else if b ∈ QSFP_TYPE_CODE_LIST then (UPDATE_DONE, QSFP_TYPE)
        else if b ∈ QSFP_DD_TYPE_CODE_LIST then (UPDATE_DONE, QSFP_DD_TYPE)
        else if b ∈ OSFP_TYPE_CODE_LIST then (UPDATE_DONE, OSFP_TYPE)
        else (UNKNOWN_SFP_TYPE_ID, sfp_type)
    | _ => (EEPROM_DATA_NOT_READY, sfp_type)

/-- The value assigned to `self.sfp_type` in `Sfp.__init__` (line 82). -/
def init_sfp_type : String := QSFP_TYPE

/-- `self.sfp_type` holds one of the four recognised module-type strings. -/
def valid_sfp_type (st : String) : Prop :=
  st = SFP_TYPE ∨ st = QSFP_TYPE ∨ st = QSFP_DD_TYPE ∨ st = OSFP_TYPE

end Sfp

namespace Sfp

/-- Claim C2: `update_sfp_type` classifies the module as a pure function of
the first EEPROM identifier byte against the four code-list tables, which
are pairwise disjoint; a byte in none of the four lists yields the
unknown-type result (and leaves the classification unchanged). -/
theorem c2_sfp_type_classification :
    (SFP_TYPE_CODE_LIST.inter QSFP_TYPE_CODE_LIST = [] ∧
     SFP_TYPE_CODE_LIST.inter QSFP_DD_TYPE_CODE_LIST = [] ∧
     SFP_TYPE_CODE_LIST.inter OSFP_TYPE_CODE_LIST = [] ∧
     QSFP_TYPE_CODE_LIST.inter QSFP_DD_TYPE_CODE_LIST = [] ∧
     QSFP_TYPE_CODE_LIST.inter OSFP_TYPE_CODE_LIST = [] ∧
     QSFP_DD_TYPE_CODE_LIST.inter OSFP_TYPE_CODE_LIST = []) ∧
    (∀ b st, b ∈ SFP_TYPE_CODE_LIST →
        update_sfp_type true (some [b]) st = (UPDATE_DONE, SFP_TYPE)) ∧
    (∀ b st, b ∈ QSFP_TYPE_CODE_LIST →
        update_sfp_type true (some [b]) st = (UPDATE_DONE, QSFP_TYPE)) ∧
    (∀ b st, b ∈ QSFP_DD_TYPE_CODE_LIST →
        update_sfp_type true (some [b]) st = (UPDATE_DONE, QSFP_DD_TYPE)) ∧
    (∀ b st, b ∈ OSFP_TYPE_CODE_LIST →
        update_sfp_type true (some [b]) st = (UPDATE_DONE, OSFP_TYPE)) ∧
    (∀ b st, b ∉ SFP_TYPE_CODE_LIST → b ∉ QSFP_TYPE_CODE_LIST →
        b ∉ QSFP_DD_TYPE_CODE_LIST → b ∉ OSFP_TYPE_CODE_LIST →
        update_sfp_type true (some [b]) st = (UNKNOWN_SFP_TYPE_ID, st)) := by
  refine ⟨by decide, ?_, ?_, ?_, ?_, ?_⟩
  · intro b st hb
    fin_cases hb <;> rfl
  · intro b st hb
    fin_cases hb <;> rfl
  · intro b st hb
    fin_cases hb <;> rfl
  · intro b st hb
    fin_cases hb
    rfl
  · intro b st h1 h2 h3 h4
    simp [update_sfp_type, h1, h2, h3, h4]

/-- Witness for C2 at concrete bytes: 0x03 is an SFP code and 0x00 is in
none of the four lists. -/
theorem c2_sfp_type_classification_witness :
    update_sfp_type true (some [0x03]) "QSFP" = (UPDATE_DONE, SFP_TYPE) ∧
    update_sfp_type true (some [0x00]) "QSFP" = (UNKNOWN_SFP_TYPE_ID, "QSFP") :=
  ⟨c2_sfp_type_classification.2.1 0x03 "QSFP" (by decide),
   c2_sfp_type_classification.2.2.2.2.2 0x00 "QSFP"
     (by decide) (by decide) (by decide) (by decide)⟩

/-- Claim C9: when the module is absent, or `read_eeprom` returns no data
(`None` or an empty buffer), `update_sfp_type` returns the fixed
`'eeprom not ready'` string and leaves `sfp_type` unchanged; the embedding
is a total function, so no exception is raised. -/
theorem c9_update_sfp_type_not_ready :
    (∀ e st, update_sfp_type false e st = (EEPROM_DATA_NOT_READY, st)) ∧
    (∀ st, update_sfp_type true none st = (EEPROM_DATA_NOT_READY, st)) ∧
    (∀ st, update_sfp_type true (some []) st = (EEPROM_DATA_NOT_READY, st)) :=
  ⟨fun _ _ => rfl, fun _ => rfl, fun _ => rfl⟩

/-- Claim C10: `sfp_type` is initialised to `"QSFP"`, and every call to
`update_sfp_type` either leaves the field unchanged or sets it to one of
the four recognised type strings; in particular the invariant
`valid_sfp_type` is preserved. -/
theorem c10_sfp_type_invariant :
    init_sfp_type = QSFP_TYPE ∧
    (∀ pres e st, (update_sfp_type pres e st).2 = st ∨
        valid_sfp_type (update_sfp_type pres e st).2) ∧
    (∀ pres e st, valid_sfp_type st →
        valid_sfp_type (update_sfp_type pres e st).2) := by
  have step : ∀ pres e st, (update_sfp_type pres e st).2 = st ∨
      valid_sfp_type (update_sfp_type pres e st).2 := by
    intro pres e st
    unfold update_sfp_type
    split
    · exact Or.inl rfl
    · split
      · split
        · exact Or.inr (Or.inl rfl)
        · split
          · exact Or.inr (Or.inr (Or.inl rfl))
          · split
            · exact Or.inr (Or.inr (Or.inr (Or.inl rfl)))
            · split
              · exact Or.inr (Or.inr (Or.inr (Or.inr rfl)))
              · exact Or.inl rfl
      · exact Or.inl rfl
  refine ⟨rfl, step, ?_⟩
  intro pres e st hst
  rcases step pres e st with h | h
  · rw [h]; exact hst
  · exact h

/-- Witness for C10: starting from the initial value `"QSFP"`, a call with
no EEPROM data keeps the field one of the four type strings. -/
theorem c10_sfp_type_invariant_witness :
    valid_sfp_type (update_sfp_type true none init_sfp_type).2 :=
  c10_sfp_type_invariant.2.2 true none init_sfp_type
    (Or.inr (Or.inl rfl))

/-- Claim C6: for ports 1..34 the derived EEPROM path is the template
`/sys/bus/i2c/devices/<bus>-0050/eeprom` with the bus taken from the
static mapping, which sends port `p` to bus `p + 1`; out-of-range port
indices yield no path (a `KeyError` in the source). -/
theorem c6_eeprom_path :
    (∀ p, p < 35 → 1 ≤ p →
        _port_to_i2c_mapping.lookup p = some (p + 1) ∧
        get_eeprom_path p =
          some ("/sys/bus/i2c/devices/" ++ Nat.repr (p + 1) ++ "-0050/eeprom")) ∧
    (∀ p, p = 0 ∨ 34 < p → get_eeprom_path p = none) := by
  constructor
  · decide
  · intro p hp
    unfold get_eeprom_path
    rw [if_neg]
    unfold PORT_START PORT_END
    omega

/-- Witness for C6: port 7 maps to i2c bus 8 and the corresponding path. -/
theorem c6_eeprom_path_witness :
    get_eeprom_path 7 = some "/sys/bus/i2c/devices/8-0050/eeprom" :=
  (c6_eeprom_path.1 7 (by decide) (by decide)).2

/-! Hardware writes issued by the setters of `sfp.py`.  `api_set_lpmode`
and `api_tx_disable` stand for the calls into the transceiver API object
returned by `get_xcvr_api()`; `sysfs` stands for
`APIHelper.write_txt_file(path, value)`.  The oracle `ret` gives the
boolean outcome of each such underlying operation. -/

inductive HwWrite where
  | api_set_lpmode (lpmode : Bool)
  | api_tx_disable (value : Bool)
  | sysfs (path : String) (value : Nat)
deriving DecidableEq

/-- `Sfp.set_lpmode`: returns the Python return value together with the
list of hardware writes issued.  `presence` is `self.get_presence()`,
`port_num` the 1-based port, `sfp_type` the current `self.sfp_type`. -/
def set_lpmode (presence : Bool) (port_num : Nat) (sfp_type : String)
    (ret : HwWrite → Bool) (lpmode : Bool) : Bool × List HwWrite :=
  if presence = false then (false, [])
  else if 32 < port_num then (false, [])
  else if sfp_type = QSFP_DD_TYPE ∨ sfp_type = OSFP_TYPE then
    (ret (HwWrite.api_set_lpmode lpmode), [HwWrite.api_set_lpmode lpmode])
  else
    let path := FPGA_PCIE_PATH ++ "module_lp_mode_" ++ Nat.repr port_num
    let w := HwWrite.sysfs path (if lpmode = true then 1 else 0)
    (ret w, [w])

/-- `Sfp.tx_disable`: ports below 33 go through the transceiver API
(`api_available` models `get_xcvr_api() is not None`); ports 33 and 34
write the `module_tx_disable_<n>` sysfs node. -/
def tx_disable (presence : Bool) (port_num : Nat) (api_available : Bool)
    (ret : HwWrite → Bool) (txd : Bool) : Bool × List HwWrite :=
  if presence = false then (false, [])
  else if port_num < 33 then
    if api_available = false then (false, [])
    else (ret (HwWrite.api_tx_disable txd), [HwWrite.api_tx_disable txd])
  else
    let path := FPGA_PCIE_PATH ++ "module_tx_disable_" ++ Nat.repr port_num
    let w := HwWrite.sysfs path (if txd = true then 1 else 0)
    (ret w, [w])

/-- Claim C3: for a port outside the range supporting low-power mode
(`port_num > 32`), `set_lpmode` issues no hardware write and returns
`false`, regardless of presence or module type; for a present in-range
port it issues exactly one underlying write and returns exactly that
write's outcome.  `tx_disable` handles every platform port (1..34): a
present port issues exactly one underlying write (API below port 33,
sysfs at 33 and 34) and returns its outcome, except that a missing
transceiver API yields `false` with no write issued. -/
theorem c3_setters_range_and_write :
    (∀ pres port st ret l, 32 < port →
        set_lpmode pres port st ret l = (false, [])) ∧
    (∀ pres port st ret l, pres = true → port ≤ 32 →
        ∃ w, set_lpmode pres port st ret l = (ret w, [w])) ∧
    (∀ pres port api ret t, pres = true → (api = false → 33 ≤ port) →
        ∃ w, tx_disable pres port api ret t = (ret w, [w])) ∧
    (∀ port ret t, port < 33 →
        tx_disable true port false ret t = (false, [])) := by
  refine ⟨?_, ?_, ?_, ?_⟩
  · intro pres port st ret l hport
    simp [set_lpmode, hport]
  · intro pres port st ret l hpres hport
    have h32 : ¬ 32 < port := by omega
    by_cases hty : st = QSFP_DD_TYPE ∨ st = OSFP_TYPE
    · exact ⟨HwWrite.api_set_lpmode l, by simp [set_lpmode, hpres, h32, hty]⟩
    · exact ⟨HwWrite.sysfs (FPGA_PCIE_PATH ++ "module_lp_mode_" ++ Nat.repr port)
        (if l = true then 1 else 0), by simp [set_lpmode, hpres, h32, hty]⟩
  · intro pres port api ret t hpres hapi
    by_cases hport : port < 33
    · have hA : api = true := by
        cases api
        · exact absurd (hapi rfl) (by omega)
        · rfl
      exact ⟨HwWrite.api_tx_disable t, by simp [tx_disable, hpres, hport, hA]⟩
    · exact ⟨HwWrite.sysfs (FPGA_PCIE_PATH ++ "module_tx_disable_" ++ Nat.repr port)
        (if t = true then 1 else 0), by simp [tx_disable, hpres, hport]⟩
  · intro port ret t hport
    simp [tx_disable, hport]

/-- The oracle in which every underlying write succeeds. -/
def every_write_ok : HwWrite → Bool := fun _ => true

/-- Witness for C3: port 33 rejects `set_lpmode` without writing, and a
port below 33 with no transceiver API fails `tx_disable` without
writing. -/
theorem c3_setters_range_and_write_witness :
    set_lpmode true 33 "QSFP" every_write_ok true = (false, []) ∧
    tx_disable true 5 false every_write_ok true = (false, []) :=
  ⟨c3_setters_range_and_write.1 true 33 "QSFP" every_write_ok true (by decide),
   c3_setters_range_and_write.2.2.2 5 every_write_ok true (by decide)⟩

/-- Modelled from the spec: the SFP status/error bit constants and the
bit-to-description dictionary used by `Sfp.__get_error_description` live in
the excluded `sonic_platform_base` framework (`SfpBase`), not under
`src/`.  The spec describes them as "a bitmask of error conditions
(unplugged, bad EEPROM checksum, over-temperature) combined via bitwise
OR and rendered as a pipe-joined description string"; the bits are
distinct powers of two, with the inserted-status bit separate from the
error bits, and the dictionary maps each error bit to its message in a
fixed iteration order. -/
def SFP_STATUS_BIT_INSERTED : Nat := 0x01

def SFP_ERROR_BIT_BAD_EEPROM : Nat := 0x10

def SFP_ERROR_BIT_HIGH_TEMP : Nat := 0x40

def SFP_STATUS_UNPLUGGED : String := "Unplugged"

def SFP_STATUS_OK : String := "OK"

def SFP_ERROR_BIT_TO_DESCRIPTION_DICT : List (Nat × String) :=
  [(0x02, "Blocking EEPROM from being read"),
   (0x04, "Power budget exceeded"),
   (0x08, "Bus stuck (I2C data or clock shorted)"),
   (0x10, "Bad or missing EEPROM"),
   (0x20, "Unsupported cable"),
   (0x40, "High temperature"),
   (0x80, "Bad cable (module or cable is shorted)")]

/-- One iteration of the rendering loop of `Sfp.__get_error_description`:
for a dictionary entry whose bit is set in `err_stat`, the accumulator
`(err_desc, cnt)` is updated.  Faithful to the source indentation: both
the `"|"` append and the `cnt` increment sit inside `if cnt > 0:`. -/
def renderErrStep (err_stat : Nat) (err_eeprom : String)
    (acc : String × Nat) (entry : Nat × String) : String × Nat :=
  if err_stat &&& entry.1 ≠ 0 then
    let desc := if acc.2 > 0 then acc.1 ++ "|" else acc.1
    let cnt := if acc.2 > 0 then acc.2 + 1 else acc.2
    (desc ++ (if entry.1 = SFP_ERROR_BIT_BAD_EEPROM then err_eeprom else entry.2), cnt)
  else acc

/-- `Sfp.__get_error_description` as a function of its oracles:
`presence` is `self.get_presence()`, `err_eeprom` the string returned by
`self.get_checksum_error()` (empty when the checksum is good), and
`temp_ok` the result of `self.validate_temperature()`. -/
def getErrorDescriptionPriv (presence : Bool) (err_eeprom : String)
    (temp_ok : Bool) : String :=
  if presence = false then SFP_STATUS_UNPLUGGED
  else
    let err1 := SFP_STATUS_BIT_INSERTED
    let err2 := if err_eeprom ≠ "" then err1 ||| SFP_ERROR_BIT_BAD_EEPROM else err1
    let err3 := if temp_ok ≠ true then err2 ||| SFP_ERROR_BIT_HIGH_TEMP else err2
    if err3 = SFP_STATUS_BIT_INSERTED then SFP_STATUS_OK
    else (SFP_ERROR_BIT_TO_DESCRIPTION_DICT.foldl
            (renderErrStep err3 err_eeprom) ("", 0)).1

/-- `Sfp.get_error_description`: `api_available` models
`get_xcvr_api() is not None` and `optoe_state` the value of
`super().get_error_description()` (`none` when it returns `None` or
raises `NotImplementedError`). -/
def get_error_description (presence : Bool) (api_available : Bool)
    (optoe_state : Option String) (err_eeprom : String) (temp_ok : Bool) : String :=
  if presence = false then SFP_STATUS_UNPLUGGED
  else if api_available = false then
    ((SFP_ERROR_BIT_TO_DESCRIPTION_DICT.lookup SFP_ERROR_BIT_BAD_EEPROM).getD "")
  else
    let state := getErrorDescriptionPriv presence err_eeprom temp_ok
    if state = SFP_STATUS_OK then
      match optoe_state with
      | none => SFP_STATUS_OK
      | some o => o
    else
      match optoe_state with
      | none => state
      | some o => o ++ "|" ++ state

/-- Claim C1 (code bug): the error-description rendering is evaluated at
the claim's three condition sets.  An absent module yields `"Unplugged"`
and a present module with only a bad checksum yields the checksum message,
as claimed; but a present module with both a bad checksum and
over-temperature yields the two messages concatenated with NO `'|'`
separator, because the `cnt` increment in `__get_error_description` is
indented under `if cnt > 0:` and so never executes — contradicting both
the claim and the function's own docstring ("they should be joined by
'|'"). -/
theorem c1_error_description_missing_separator :
    get_error_description false true none "" true = "Unplugged" ∧
    get_error_description true true none "Bad or missing EEPROM" true
      = "Bad or missing EEPROM" ∧
    get_error_description true true none "Bad or missing EEPROM" false
      = "Bad or missing EEPROMHigh temperature" ∧
    get_error_description true true none "Bad or missing EEPROM" false
      ≠ "Bad or missing EEPROM|High temperature" := by
  refine ⟨rfl, rfl, rfl, ?_⟩
  decide

end Sfp

namespace Util

/-! Embedding of `utils/accton_as9817_32o_util.py`.  Python floats are
modelled as rationals; subprocess and i2c outcomes are oracle
parameters. -/

def CPU : Nat := 0

def FRONT : Nat := 1

def S_10G : Nat := 2

def S_25G : Nat := 3

def THRESHOLD_RANGE_LOW : ℚ := 30

def THRESHOLD_RANGE_HIGH : ℚ := 110

/-- The result of Python `float(x)`: a finite value (every finite IEEE
double is a rational), NaN, or an infinity — `float` accepts the strings
`'nan'`, `'inf'` and `'-inf'` as well as finite literals. -/
inductive PyFloat where
  | val (q : ℚ)
  | nan
  | inf
  | ninf
deriving DecidableEq

/-- Python float `<`: every comparison involving NaN is `False`;
infinities compare as expected; finite doubles compare exactly as
rationals. -/
def PyFloat.lt : PyFloat → PyFloat → Bool
  | PyFloat.val a, PyFloat.val b => decide (a < b)
  | PyFloat.nan, _ => false
  | _, PyFloat.nan => false
  | PyFloat.val _, PyFloat.inf => true
  | PyFloat.ninf, PyFloat.val _ => true
  | PyFloat.ninf, PyFloat.inf => true
  | _, _ => false

/-- Python float `<=` (used to state the claim's range condition
`30.0 <= x <= 110.0` over floats): every comparison involving NaN is
`False`. -/
def PyFloat.le : PyFloat → PyFloat → Bool
  | PyFloat.val a, PyFloat.val b => decide (a ≤ b)
  | PyFloat.nan, _ => false
  | _, PyFloat.nan => false
  | PyFloat.val _, PyFloat.inf => true
  | PyFloat.ninf, PyFloat.val _ => true
  | PyFloat.ninf, PyFloat.inf => true
  | PyFloat.inf, PyFloat.inf => true
  | PyFloat.ninf, PyFloat.ninf => true
  | _, _ => false

/-- `restricted_float`: the argparse type callback for `-ht`/`-hct`.
`none` models a string that `float()` rejects; `some v` a string parsing
to the float `v`.  The source test is `if x < 30.0 or x > 110.0:`, with
`x > 110.0` being `110.0 < x`; `Except.error` models
`argparse.ArgumentTypeError`. -/
def restricted_float (x : Option PyFloat) : Except String PyFloat :=
  match x with
  | none => Except.error "not a floating-point literal"
  | some v =>
      if v.lt (PyFloat.val THRESHOLD_RANGE_LOW) = true
          ∨ (PyFloat.val THRESHOLD_RANGE_HIGH).lt v = true then
        Except.error "not in range"
      else Except.ok v

/-- Claim C7 counterexample: the string `'nan'` parses as a float and is
ACCEPTED by `restricted_float` — both range comparisons are `False` for
NaN, so the `raise` branch is not taken — although NaN does not satisfy
`30.0 <= x <= 110.0`.  This refutes the claimed exact-range acceptance. -/
theorem c7_restricted_float_nan_counterexample :
    restricted_float (some PyFloat.nan) = Except.ok PyFloat.nan ∧
    (PyFloat.val THRESHOLD_RANGE_LOW).le PyFloat.nan = false ∧
    PyFloat.nan.le (PyFloat.val THRESHOLD_RANGE_HIGH) = false :=
  ⟨rfl, rfl, rfl⟩

/-- Claim C7 as amended: `restricted_float` rejects every non-numeric
string; it accepts a parsed float `x` exactly when neither `x < 30.0`
nor `x > 110.0` holds under Python float comparison — for every finite
value that is exactly `30.0 ≤ x ≤ 110.0`, and the infinities are
rejected, but NaN, for which both comparisons are `False`, is also
accepted. -/
theorem c7_restricted_float_amended :
    (∀ v : PyFloat, restricted_float (some v) = Except.ok v ↔
        (v.lt (PyFloat.val THRESHOLD_RANGE_LOW) = false ∧
         (PyFloat.val THRESHOLD_RANGE_HIGH).lt v = false)) ∧
    (∀ q : ℚ, restricted_float (some (PyFloat.val q)) = Except.ok (PyFloat.val q) ↔
        THRESHOLD_RANGE_LOW ≤ q ∧ q ≤ THRESHOLD_RANGE_HIGH) ∧
    (∀ q : ℚ, q < THRESHOLD_RANGE_LOW ∨ THRESHOLD_RANGE_HIGH < q →
        restricted_float (some (PyFloat.val q)) = Except.error "not in range") ∧
    restricted_float (some PyFloat.nan) = Except.ok PyFloat.nan ∧
    restricted_float (some PyFloat.inf) = Except.error "not in range" ∧
    restricted_float (some PyFloat.ninf) = Except.error "not in range" ∧
    restricted_float none = Except.error "not a floating-point literal" := by
  refine ⟨?_, ?_, ?_, rfl, rfl, rfl, rfl⟩
  · intro v
    simp only [restricted_float]
    by_cases h : v.lt (PyFloat.val THRESHOLD_RANGE_LOW) = true
        ∨ (PyFloat.val THRESHOLD_RANGE_HIGH).lt v = true
    · rw [if_pos h]
      constructor
      · intro hh
        exact Except.noConfusion hh
      · rintro ⟨h1, h2⟩
        rcases h with h | h
        · rw [h1] at h
          exact Bool.noConfusion h
        · rw [h2] at h
          exact Bool.noConfusion h
    · rw [if_neg h]
      simp only [not_or, Bool.not_eq_true] at h
      simp [h.1, h.2]
  · intro q
    simp only [restricted_float, PyFloat.lt, decide_eq_true_eq]
    by_cases h : q < THRESHOLD_RANGE_LOW ∨ THRESHOLD_RANGE_HIGH < q
    · rw [if_pos h]
      constructor
      · intro hh
        exact Except.noConfusion hh
      · rintro ⟨h1, h2⟩
        rcases h with h | h
        · exact absurd h1 (not_le.mpr h)
        · exact absurd h2 (not_le.mpr h)
    · rw [if_neg h]
      push_neg at h
      simp [h.1, h.2]
  · intro q ho
    simp only [restricted_float, PyFloat.lt, decide_eq_true_eq]
    rw [if_pos ho]

/-- Witness for the amended C7: the finite value 50 is accepted and the
finite value 20 is rejected with the range error. -/
theorem c7_restricted_float_amended_witness :
    restricted_float (some (PyFloat.val 50)) = Except.ok (PyFloat.val 50) ∧
    restricted_float (some (PyFloat.val 20)) = Except.error "not in range" :=
  ⟨(c7_restricted_float_amended.2.1 50).mpr
      (by norm_num [THRESHOLD_RANGE_LOW, THRESHOLD_RANGE_HIGH]),
   c7_restricted_float_amended.2.2.1 20
      (Or.inl (by norm_num [THRESHOLD_RANGE_LOW]))⟩

/-- The parsed arguments of the `threshold` subcommand. -/
structure ThresholdArgs where
  list : Bool
  thermal : Option String
  high_threshold : Option ℚ
  high_crit_threshold : Option ℚ

/-- Outcome of `do_threshold`.  `applied` is the only outcome that runs the
setter code inside the pmon container (so `invalid_exit` applies no
threshold); `invalid_exit` is `exit(1)`. -/
inductive ThresholdOutcome where
  | listed
  | missing_thermal
  | invalid_exit
  | no_op
  | applied (set_high : Option ℚ) (set_high_crit : Option ℚ)
deriving DecidableEq

/-- The high-threshold block's invalid-ordering test: a given `-hct` value
less than or equal to `ht`, or a currently configured high critical
threshold less than or equal to `ht` (`args.high_threshold >= ...`). -/
def ht_invalid (ht : ℚ) (hct_arg : Option ℚ) (cur_high_crit : Option ℚ) : Bool :=
  (match hct_arg with
   | some hct => decide (hct ≤ ht)
   | none => false) ||
  (match cur_high_crit with
   | some c => decide (c ≤ ht)
   | none => false)

/-- The high-critical-threshold block's invalid-ordering test:
`args.high_crit_threshold <= ` the currently configured high threshold. -/
def hct_invalid (hct : ℚ) (cur_high : Option ℚ) : Bool :=
  match cur_high with
  | some h => decide (hct ≤ h)
  | none => false

/-- `do_threshold` as a function of the parsed arguments and of the
thermal's currently configured thresholds (`none` models
`get_high_threshold`/`get_high_crit_threshold` returning `None`). -/
def do_threshold (a : ThresholdArgs) (cur_high cur_high_crit : Option ℚ) :
    ThresholdOutcome :=
  if a.list = true then ThresholdOutcome.listed
  else
    match a.thermal with
    | none => ThresholdOutcome.missing_thermal
    | some _ =>
      match a.high_threshold with
      | some ht =>
          if ht_invalid ht a.high_crit_threshold cur_high_crit then
            ThresholdOutcome.invalid_exit
          else
            match a.high_crit_threshold with
            | some hct =>
                if hct_invalid hct cur_high then ThresholdOutcome.invalid_exit
                else ThresholdOutcome.applied (some ht) (some hct)
            | none => ThresholdOutcome.applied (some ht) none
      | none =>
          match a.high_crit_threshold with
          | some hct =>
              if hct_invalid hct cur_high then ThresholdOutcome.invalid_exit
              else ThresholdOutcome.applied none (some hct)
          | none => ThresholdOutcome.no_op

/-- Claim C8: with a thermal named, `do_threshold` exits with status 1 —
applying no threshold — whenever the requested ordering is invalid: a
given high threshold at or above the given high critical threshold, a
given high threshold at or above the currently configured high critical
threshold, or a given high critical threshold at or below the currently
configured high threshold. -/
theorem c8_threshold_invalid_ordering :
    (∀ name ht hct ch chc, hct ≤ ht →
        do_threshold ⟨false, some name, some ht, some hct⟩ ch chc
          = ThresholdOutcome.invalid_exit) ∧
    (∀ name ht hct_arg ch c, c ≤ ht →
        do_threshold ⟨false, some name, some ht, hct_arg⟩ ch (some c)
          = ThresholdOutcome.invalid_exit) ∧
    (∀ name hct ht_arg chc h, hct ≤ h →
        do_threshold ⟨false, some name, ht_arg, some hct⟩ (some h) chc
          = ThresholdOutcome.invalid_exit) := by
  refine ⟨?_, ?_, ?_⟩
  · intro name ht hct ch chc hle
    have : ht_invalid ht (some hct) chc = true := by
      unfold ht_invalid
      simp [hle]
    simp [do_threshold, this]
  · intro name ht hct_arg ch c hle
    have : ht_invalid ht hct_arg (some c) = true := by
      unfold ht_invalid
      simp [hle]
    simp [do_threshold, this]
  · intro name hct ht_arg chc h hle
    have hinv : hct_invalid hct (some h) = true := by
      unfold hct_invalid
      simp [hle]
    cases ht_arg with
    | none => simp [do_threshold, hinv]
    | some ht =>
        by_cases hfirst : ht_invalid ht (some hct) chc = true
        · simp [do_threshold, hfirst]
        · simp [do_threshold, hfirst, hinv]

/-- Witness for C8: requesting `-ht 80 -hct 70` (70 ≤ 80) exits with
status 1. -/
theorem c8_threshold_invalid_ordering_witness :
    do_threshold ⟨false, some "Temp sensor 1", some 80, some 70⟩ none none
      = ThresholdOutcome.invalid_exit :=
  c8_threshold_invalid_ordering.1 "Temp sensor 1" 80 70 none none (by norm_num)

/-! The install/uninstall step sequences.  `stat i` is the exit status of
the i-th step (`subprocess.getstatusoutput`); a step is `checked` when the
source tests its status (`if status: if FORCE == 0: return status`). -/

/-- The kernel-module list `kos`. -/
def kos : List String :=
  ["modprobe i2c_dev",
   "modprobe i2c_i801",
   "modprobe i2c_ismt",
   "modprobe optoe",
   "modprobe at24",
   "modprobe i2c-ocores",
   "modprobe accton_as9817_32_fpga",
   "modprobe accton_as9817_32_fan",
   "modprobe accton_as9817_32_psu",
   "modprobe accton_as9817_32_thermal",
   "modprobe accton_as9817_32_sys",
   "modprobe accton_as9817_32_leds",
   "modprobe accton_as9817_32_mux"]

/-- The steps of `driver_install` in execution order, flagged with whether
their status is checked (the `depmod -ae` status is overwritten without
being tested). -/
def driver_install_steps : List (String × Bool) :=
  ("modprobe ice", true) :: ("init_ipmi", true) :: ("depmod -ae", false)
    :: kos.map (fun c => (c, true))

/-- Runs a step list in order from step index `i`: a failing checked step
aborts with that step's status when `force = 0`, and is skipped over
otherwise; returns the final status and the executed steps. -/
def runSteps (force : Nat) (stat : Nat → Nat) :
    List (String × Bool) → Nat → Nat × List String
  | [], _ => (0, [])
  | (cmd, chk) :: rest, i =>
      if chk = true ∧ stat i ≠ 0 ∧ force = 0 then (stat i, [cmd])
      else
        let r := runSteps force stat rest (i + 1)
        (r.1, cmd :: r.2)

/-- `driver_install`, returning the status and the executed steps. -/
def driver_install (force : Nat) (stat : Nat → Nat) : Nat × List String :=
  runSteps force stat driver_install_steps 0

/-- The value `main` assigns to the global `FORCE` (line 107 of the
source): the flag-derived assignment `FORCE = 1 if args.force else 0` is
commented out and `FORCE = 1` is hard-coded, whatever `-f` was. -/
def mainFORCE (_force_flag : Bool) : Nat := 1

/-- The step-status oracle in which the first step fails (status 1) and
every later step succeeds. -/
def first_step_fails : Nat → Nat := fun i => if i = 0 then 1 else 0

/-- Claim C4 (code bug): `main` hard-codes `FORCE = 1` regardless of the
`-f` (`--force`) flag, so the install sequence continues past a failed step
even without `-f` — contradicting the claim and the flag's own help text
("ignore error during installation or clean").  With the abort logic the
claim describes (`FORCE = 0`), a failing first step would abort with its
status; with the `FORCE` value `main` actually computes, `driver_install`
runs every remaining step and returns 0. -/
theorem c4_force_flag_ignored :
    (mainFORCE false = 1 ∧ mainFORCE true = 1) ∧
    driver_install 0 first_step_fails = (1, ["modprobe ice"]) ∧
    driver_install (mainFORCE false) first_step_fails
      = (0, driver_install_steps.map Prod.fst) := by
  refine ⟨⟨rfl, rfl⟩, ?_, ?_⟩ <;> decide

/-! Retimer configuration sequences.  `ok i` is the success of the i-th
`set_i2c_register` call of the sequence (the i2cset subprocess); each
sequence returns its Python result together with the `(register, value)`
pairs it attempted, in order. -/

/-- Runs a register list in order from call index `i`, aborting after the
first failed write. -/
def write_seq {α : Type} (ok : Nat → Bool) : Nat → List α → Bool × List α
  | _, [] => (true, [])
  | i, r :: rest =>
      if ok i = false then (false, [r])
      else
        let t := write_seq ok (i + 1) rest
        (t.1, r :: t.2)

theorem write_seq_take {α : Type} (ok : Nat → Bool) :
    ∀ (l : List α) (i : Nat), ∃ n, (write_seq ok i l).2 = l.take n := by
  intro l
  induction l with
  | nil => intro i; exact ⟨0, rfl⟩
  | cons a rest ih =>
      intro i
      by_cases h : ok i = false
      · exact ⟨1, by simp [write_seq, h]⟩
      · rcases ih (i + 1) with ⟨n, hn⟩
        exact ⟨n + 1, by simp [write_seq, h, hn]⟩

theorem write_seq_fail {α : Type} (ok : Nat → Bool) :
    ∀ (l : List α) (i k : Nat), k < l.length →
      (∀ j, j < k → ok (i + j) = true) → ok (i + k) = false →
      write_seq ok i l = (false, l.take (k + 1)) := by
  intro l
  induction l with
  | nil =>
      intro i k hk
      simp at hk
  | cons a rest ih =>
      intro i k hk hprev hfail
      cases k with
      | zero =>
          have h0 : ok i = false := by simpa using hfail
          simp [write_seq, h0]
      | succ m =>
          have h0 : ok i = true := by simpa using hprev 0 (Nat.succ_pos m)
          have hrest : write_seq ok (i + 1) rest = (false, rest.take (m + 1)) := by
            apply ih
            · simpa using hk
            · intro j hj
              have heq : i + 1 + j = i + (j + 1) := by omega
              rw [heq]
              exact hprev (j + 1) (by omega)
            · have heq : i + 1 + m = i + (m + 1) := by omega
              rw [heq]
              exact hfail
          simp [write_seq, h0, hrest]

/-- The `register_values` list of `df810_txfir_set`.  Python's hex-string
formatting of each value is elided: values are kept as the integers the
format strings encode. -/
def df810_txfir_registers (offset : Nat) (pre main post : Int) :
    List (Nat × Int) :=
  let channel : Int := 2 ^ offset
  let main_sign : Int := if 0 < main then 0x80 else 0x40
  let ps : Int × Int := if pre ≤ 0 then (0x40, -pre) else (0x00, pre)
  let qs : Int × Int := if post ≤ 0 then (0x40, -post) else (0x00, post)
  [(0xff, 0x01), (0xfc, channel), (0x3d, 0x80), (0x3d, 0x80),
   (0x3f, 0x40), (0x3e, 0x40),
   (0x3d, Int.lor main main_sign),
   (0x3f, Int.lor qs.2 qs.1),
   (0x3e, Int.lor ps.2 ps.1)]

/-- `df810_txfir_set`: aborts on the first failed write, returning
`False` (`some false`); on success the Python function falls through and
returns `None` (`none`). -/
def df810_txfir_set (ok : Nat → Bool) (offset : Nat) (pre main post : Int) :
    Option Bool × List (Nat × Int) :=
  let t := write_seq ok 0 (df810_txfir_registers offset pre main post)
  (if t.1 = false then some false else none, t.2)

/-- The `register_values` list of `df810_cdr_bw_set`. -/
def df810_cdr_bw_registers (offset param1 param2 : Nat) : List (Nat × Int) :=
  [(0xff, 0x01), (0xfc, (2 : Int) ^ offset), (0x1c, (param1 : Int)),
   (0x9e, (param2 : Int)), (0x9, 0x8), (0xa, 0x40)]

/-- `df810_cdr_bw_set`. -/
def df810_cdr_bw_set (ok : Nat → Bool) (offset param1 param2 : Nat) :
    Option Bool × List (Nat × Int) :=
  let t := write_seq ok 0 (df810_cdr_bw_registers offset param1 param2)
  (if t.1 = false then some false else none, t.2)

/-- The nine per-channel writes of `df810_cross_point`. -/
def df810_cross_point_inner : List (Nat × Nat) :=
  [(0x95, 0x08), (0x96, 0x00), (0x96, 0x04), (0x96, 0x04), (0x96, 0x06),
   (0x96, 0x06), (0x0a, 0x0c), (0x0a, 0x00), (0x79, 0x11)]

/-- The full write sequence of `df810_cross_point`: the initial `0xff`
write, then for each of the 8 channels the channel-select write followed
by the nine per-channel writes. -/
def df810_cross_point_registers : List (Nat × Nat) :=
  (0xff, 0x01) ::
    (List.range 8).flatMap (fun off => (0xfc, 2 ^ off) :: df810_cross_point_inner)

/-- `df810_cross_point`: aborts on the first failed write (returning
`False`); falls through returning `None` on success. -/
def df810_cross_point (ok : Nat → Bool) : Option Bool × List (Nat × Nat) :=
  let t := write_seq ok 0 df810_cross_point_registers
  (if t.1 = false then some false else none, t.2)

/-- The common `register_values` list of `config_sfp`; for 10G the entry
at index `-4` (the RATE register `0x2f`) is replaced. -/
def config_sfp_registers (speed : Nat) : List (Nat × Nat) :=
  let base := [(0xfc, 0x01), (0xff, 0x03), (0x00, 0x04), (0x0a, 0x0c),
               (0x2f, 0x54), (0x31, 0x40), (0x1e, 0xe3), (0x0a, 0x00)]
  if speed = S_10G then base.set 4 (0x2f, 0x04) else base

def TI_MUX_I2C_ADDR : Nat := 0x1b

/-- The register lists (on the retimer address) of the sub-sequence calls
`config_sfp` makes — and whose results it ignores — in call order. -/
def config_sfp_sub_lists (dest speed : Nat) : List (List (Nat × Int)) :=
  if dest = CPU then
    (if speed = S_10G then
      [df810_txfir_registers 0 0 17 (-2), df810_txfir_registers 2 0 17 (-2),
       df810_txfir_registers 4 0 7 0, df810_txfir_registers 6 0 7 0,
       df810_cdr_bw_registers 4 0x24 0xfc, df810_cdr_bw_registers 6 0x24 0xfc]
     else [])
  else if dest = FRONT then
    (if speed = S_10G then
       [df810_txfir_registers 1 0 15 (-3), df810_txfir_registers 3 0 15 (-3)]
     else if speed = S_25G then
       [df810_txfir_registers 1 (-8) 22 0, df810_txfir_registers 3 (-8) 22 0]
     else [])
    ++ [df810_cross_point_registers.map (fun rv => (rv.1, (rv.2 : Int)))]
  else []

/-- Runs the ignored sub-sequences in order: each aborts its own writes on
failure, but `config_sfp` proceeds to the next one regardless. -/
def run_subs (ok : Nat → Bool) : Nat → List (List (Nat × Int)) → List (Nat × Int)
  | _, [] => []
  | i, s :: rest =>
      let t := write_seq ok i s
      t.2 ++ run_subs ok (i + t.2.length) rest

/-- `config_sfp`, with the write trace tagged by i2c device address: the
MUX-enable/disable writes go to device `0x72`, everything else to the
retimer at `TI_MUX_I2C_ADDR`. -/
def config_sfp (ok : Nat → Bool) (dest speed : Nat) :
    Bool × List (Nat × Nat × Int) :=
  let enable : Nat × Nat × Int := (0x72, 0x00, 1)
  if ok 0 = false then (false, [enable])
  else
    let common := (config_sfp_registers speed).map
      (fun rv => (TI_MUX_I2C_ADDR, rv.1, (rv.2 : Int)))
    let t := write_seq ok 1 common
    if t.1 = false then (false, enable :: t.2)
    else
      let n := 1 + common.length
      let sub := run_subs ok n (config_sfp_sub_lists dest speed)
      let subTagged := sub.map (fun rv => (TI_MUX_I2C_ADDR, rv.1, rv.2))
      let disable : Nat × Nat × Int := (0x72, 0x00, 0)
      if ok (n + sub.length) = false then
        (false, enable :: t.2 ++ subTagged ++ [disable])
      else (true, enable :: t.2 ++ subTagged ++ [disable])

/-- Claim C5: each retimer sequence (TX-FIR, CDR bandwidth, cross-point,
and the common `config_sfp` register list) issues its fixed
`(register, value)` pairs in list order; when the write at position `k`
is the first to fail, the sequence returns failure immediately, the
attempted writes being exactly the first `k + 1` pairs — none of the
subsequent writes is issued and nothing already issued is rolled back
(the trace is always a prefix of the fixed list). -/
theorem c5_retimer_sequence_abort :
    (∀ ok offset pre main post k, k < 9 →
        (∀ j, j < k → ok j = true) → ok k = false →
        df810_txfir_set ok offset pre main post
          = (some false, (df810_txfir_registers offset pre main post).take (k + 1))) ∧
    (∀ ok offset p1 p2 k, k < 6 →
        (∀ j, j < k → ok j = true) → ok k = false →
        df810_cdr_bw_set ok offset p1 p2
          = (some false, (df810_cdr_bw_registers offset p1 p2).take (k + 1))) ∧
    (∀ ok k, k < 81 →
        (∀ j, j < k → ok j = true) → ok k = false →
        df810_cross_point ok
          = (some false, df810_cross_point_registers.take (k + 1))) ∧
    (∀ ok dest speed k, k < 8 → ok 0 = true →
        (∀ j, j < k → ok (1 + j) = true) → ok (1 + k) = false →
        config_sfp ok dest speed
          = (false, (0x72, 0x00, (1 : Int)) ::
              ((config_sfp_registers speed).map
                (fun rv => (TI_MUX_I2C_ADDR, rv.1, (rv.2 : Int)))).take (k + 1))) ∧
    (∀ ok offset pre main post, ∃ n,
        (df810_txfir_set ok offset pre main post).2
          = (df810_txfir_registers offset pre main post).take n) := by
  refine ⟨?_, ?_, ?_, ?_, ?_⟩
  · intro ok offset pre main post k hk hprev hfail
    have hlen : (df810_txfir_registers offset pre main post).length = 9 := rfl
    have hw := write_seq_fail ok (df810_txfir_registers offset pre main post) 0 k
      (by omega) (fun j hj => by simpa using hprev j hj) (by simpa using hfail)
    simp [df810_txfir_set, hw]
  · intro ok offset p1 p2 k hk hprev hfail
    have hlen : (df810_cdr_bw_registers offset p1 p2).length = 6 := rfl
    have hw := write_seq_fail ok (df810_cdr_bw_registers offset p1 p2) 0 k
      (by omega) (fun j hj => by simpa using hprev j hj) (by simpa using hfail)
    simp [df810_cdr_bw_set, hw]
  · intro ok k hk hprev hfail
    have hlen : df810_cross_point_registers.length = 81 := by decide
    have hw := write_seq_fail ok df810_cross_point_registers 0 k
      (by omega) (fun j hj => by simpa using hprev j hj) (by simpa using hfail)
    simp [df810_cross_point, hw]
  · intro ok dest speed k hk h0 hprev hfail
    have hlen : ((config_sfp_registers speed).map
        (fun rv => (TI_MUX_I2C_ADDR, rv.1, (rv.2 : Int)))).length = 8 := by
      rw [List.length_map]
      unfold config_sfp_registers
      split <;> simp
    have hw := write_seq_fail ok ((config_sfp_registers speed).map
        (fun rv => (TI_MUX_I2C_ADDR, rv.1, (rv.2 : Int)))) 1 k
      (by omega) hprev hfail
    simp [config_sfp, h0, hw]
  · intro ok offset pre main post
    rcases write_seq_take ok (df810_txfir_registers offset pre main post) 0 with ⟨n, hn⟩
    exact ⟨n, by simp [df810_txfir_set, hn]⟩

/-- The write-success oracle in which the first two writes succeed and the
third fails. -/
def ok_fail_at_2 : Nat → Bool := fun j => decide (j < 2)

/-- Witness for C5: with the third write failing, the 25G front-port
TX-FIR sequence aborts after exactly three attempted writes. -/
theorem c5_retimer_sequence_abort_witness :
    df810_txfir_set ok_fail_at_2 1 (-8) 22 0
      = (some false, (df810_txfir_registers 1 (-8) 22 0).take 3) :=
  c5_retimer_sequence_abort.1 ok_fail_at_2 1 (-8) 22 0 2 (by decide)
    (fun j hj => decide_eq_true hj) (by decide)

end Util
